import Mathlib

/-!
Verification of the video-watch-progress tracking and persistence protocol
of the ML Studio dashboard (the Playback Monitor in
`src/components/VideoCard.jsx` and the Progress Store client in
`src/lib/userProgress.js`).

Modelling conventions:
* JavaScript numbers are modelled as rationals (`ℚ`) for playback positions
  and percentages, and as integers (`ℤ`) for the rounded display percentage
  and timestamps. `Math.round` becomes `jsRound`.
* Firestore documents are modelled as functions from keys to optional
  values; `setDoc(..., { merge: true })` with the nested
  `{ videoProgress: { [videoId]: record } }` payload is modelled as the
  recursive merge Firestore documents for `merge: true`: only the leaf path
  `videoProgress.[videoId]` is written, sibling keys are preserved.
* Asynchronous failures are modelled with `Except String`; a `try`/`catch`
  in the source becomes an explicit `catch` combinator.
* React state (`useState`) is modelled as explicit monitor state threaded
  through the handlers.  A JavaScript closure captures the *render-scope
  value* of a state variable, not the live state: the `setInterval`
  callback created in `onReady` therefore reads the `completed` value that
  was current when the interval was created (field `capturedCompleted` of
  `PollClosure`), while `onStateChange` is re-created on every render and
  reads the current state.
-/

namespace MLStudio

/-- One progress record stored under `videoProgress.[videoId]`
(`userProgress.js` line 41: `{ completed, pct: Math.round(pct), updatedAt: now }`). -/
structure ProgressRecord where
  completed : Bool
  pct : ℤ
  updatedAt : ℤ
deriving DecidableEq, Repr

/-- The per-user mapping from video id to progress record
(the `videoProgress` sub-document). -/
abbrev VPMap := String → Option ProgressRecord

def emptyVP : VPMap := fun _ => none

/-- A user document; the only field this component touches is
`videoProgress`, which may be absent (`data.videoProgress || {}`). -/
structure UserDoc where
  videoProgress : Option VPMap

/-- The `users` collection: user id to optional document. -/
abbrev Store := String → Option UserDoc

def emptyStore : Store := fun _ => none

/-- JavaScript `Math.round`: round half toward positive infinity. -/
def jsRound (q : ℚ) : ℤ := Int.floor (q + 1/2)

/-- Model of `getUserProgress(uid)` from `src/lib/userProgress.js` lines 22-29.
`readResult` is what the awaited `getDoc` would produce if it were called
(an error models a rejected read).  The returned `Bool` records whether
`getDoc` was actually invoked.  `uid = ""` models a falsy `uid`. -/
def getUserProgress (uid : String) (readResult : Except String (Option UserDoc)) :
    Except String VPMap × Bool :=
  if uid = "" then (Except.ok emptyVP, false)
  else
    match readResult with
    | Except.error e => (Except.error e, true)
    | Except.ok none => (Except.ok emptyVP, true)
    | Except.ok (some d) =>
      match d.videoProgress with
      | some m => (Except.ok m, true)
      | none => (Except.ok emptyVP, true)

/-- Model of `saveVideoProgress(uid, videoId, pct)` from `src/lib/userProgress.js`
lines 31-46.  Throws (`Except.error`) on a falsy `uid`; otherwise computes
`completed = pct >= 80` on the *unrounded* pct and issues
`setDoc(dref, { videoProgress: { [videoId]: rec } }, { merge: true })`,
which deep-merges: it writes only the one `videoProgress.[videoId]` leaf,
preserving sibling video ids and other users' documents. -/
def saveVideoProgress (uid videoId : String) (pct : ℚ) (now : ℤ) (store : Store) :
    Except String Store :=
  if uid = "" then Except.error "No uid for saving progress"
  else
    let completed : Bool := decide (80 ≤ pct)
    let rec1 : ProgressRecord := ⟨completed, jsRound pct, now⟩
    let oldVP : VPMap :=
      match store uid with
      | some d => match d.videoProgress with
        | some m => m
        | none => emptyVP
      | none => emptyVP
    let newVP : VPMap := fun k => if k = videoId then some rec1 else oldVP k
    Except.ok (fun u => if u = uid then some ⟨some newVP⟩ else store u)

/-- The store produced by a successful save (unchanged store on failure). -/
def saveResultStore (uid videoId : String) (pct : ℚ) (now : ℤ) (store : Store) : Store :=
  match saveVideoProgress uid videoId pct now store with
  | Except.ok s => s
  | Except.error _ => store

/-- Look a progress record up through the store layers. -/
def lookupVP (store : Store) (uid videoId : String) : Option ProgressRecord :=
  match store uid with
  | none => none
  | some d =>
    match d.videoProgress with
    | none => none
    | some m => m videoId

/-! ## Playback Monitor (`src/components/VideoCard.jsx`) -/

/-- The React state of one mounted `VideoCard`:
`const [completed, setCompleted] = useState(false)` and
`const [pct, setPct] = useState(0)`. -/
structure MonitorState where
  completed : Bool
  pct : ℤ
deriving DecidableEq, Repr

def initialMonitorState : MonitorState := ⟨false, 0⟩

/-- One reading of the player handle inside a tick:
`player.getDuration()` and `player.getCurrentTime()`. -/
structure PlayerSample where
  duration : ℚ
  current : ℚ
deriving DecidableEq, Repr

/-- One `saveVideoProgress(uid, videoId, percent)` call issued by the
monitor (the request, independent of its outcome). -/
structure WriteReq where
  uid : String
  videoId : String
  percent : ℚ
deriving DecidableEq, Repr

/-- The interval created in `onReady` (lines 357-381): its timer identity
and the render-scope values its callback closed over.  `capturedCompleted`
is the `completed` value of the render that produced the `onReady` that
ran — `setCompleted` never updates this captured binding. -/
structure PollClosure where
  tid : ℕ
  videoId : String
  capturedCompleted : Bool
  capturedUser : Option String
deriving DecidableEq, Repr

/-- Outcome of the awaited `saveVideoProgress` promise. -/
inductive WriteOutcome
  | succeeded
  | failed
deriving DecidableEq, Repr

/-- The store call as seen by the monitor: a promise that resolves or
rejects. -/
def saveAttempt (o : WriteOutcome) : Except String Unit :=
  match o with
  | WriteOutcome.succeeded => Except.ok ()
  | WriteOutcome.failed => Except.error "save progress failed"

/-- Model of `try { await ... } catch (err) { console.error(...) }`: the
rejection is swallowed after logging (lines 371-375). -/
def catchLogged (a : Except String Unit) : Except String Unit :=
  match a with
  | Except.ok _ => Except.ok ()
  | Except.error _ => Except.ok ()

/-- One sampling tick, the body of the `setInterval` callback
(lines 357-381), with the inner `try`/`catch` around the awaited save made
explicit.  `sample = none` models a missing/handle-less player (line 360);
a zero duration returns early (line 363).  Note that the threshold test
`percent >= 80` uses the raw, unrounded percent, and `!completed` reads
the closure-captured flag. -/
def tickE (cl : PollClosure) (sample : Option PlayerSample) (o : WriteOutcome)
    (st : MonitorState) : Except String (MonitorState × List WriteReq) :=
  match sample with
  | none => Except.ok (st, [])
  | some s =>
    if s.duration = 0 then Except.ok (st, [])
    else
      let percent : ℚ := s.current / s.duration * 100
      let st1 : MonitorState := { st with pct := jsRound percent }
      if 80 ≤ percent ∧ cl.capturedCompleted = false then
        let st2 : MonitorState := { st1 with completed := true }
        match cl.capturedUser with
        | some u =>
          match catchLogged (saveAttempt o) with
          | Except.ok _ => Except.ok (st2, [⟨u, cl.videoId, percent⟩])
          | Except.error e => Except.error e
        | none => Except.ok (st2, [])
      else Except.ok (st1, [])

/-- The pure result of one sampling tick: the new monitor state and the
write requests issued (the state does not depend on the write outcome,
see `c4_store_failures_absorbed`). -/
def tick (cl : PollClosure) (sample : Option PlayerSample) (st : MonitorState) :
    MonitorState × List WriteReq :=
  match sample with
  | none => (st, [])
  | some s =>
    if s.duration = 0 then (st, [])
    else
      let percent : ℚ := s.current / s.duration * 100
      let st1 : MonitorState := { st with pct := jsRound percent }
      if 80 ≤ percent ∧ cl.capturedCompleted = false then
        ({ st1 with completed := true },
          match cl.capturedUser with
          | some u => [⟨u, cl.videoId, percent⟩]
          | none => [])
      else (st1, [])

/-- A sequence of ticks of one interval (one mount, one closure),
collecting all write requests. -/
def runTicks (cl : PollClosure) (samples : List (Option PlayerSample))
    (st : MonitorState) : MonitorState × List WriteReq :=
  match samples with
  | [] => (st, [])
  | s :: rest =>
    let r := tick cl s st
    let r2 := runTicks cl rest r.1
    (r2.1, r.2 ++ r2.2)

/-- The `onStateChange` handler (lines 385-391).  It is re-created on
every render, so it reads the *current* `completed` state.  YT state 0 is
the native "ended" signal; the save call is issued with percent forced to
100.  The call is not awaited. -/
def onStateChange (data : ℤ) (user : Option String) (videoId : String)
    (st : MonitorState) : MonitorState × List WriteReq :=
  if data = 0 ∧ st.completed = false then
    ({ st with completed := true },
      match user with
      | some u => [⟨u, videoId, (100 : ℚ)⟩]
      | none => [])
  else (st, [])

/-- Variant of `onStateChange` with the store call's outcome made explicit: the call
`saveVideoProgress(...)` on line 389 is fire-and-forget (not awaited), so
by JavaScript semantics its rejection surfaces as an unhandled promise
rejection outside the handler and can never escape the handler itself as
an error, nor influence the state it produced. -/
def onStateChangeE (data : ℤ) (user : Option String) (videoId : String)
    (o : WriteOutcome) (st : MonitorState) : Except String (MonitorState × List WriteReq) :=
  if data = 0 ∧ st.completed = false then
    let st2 : MonitorState := { st with completed := true }
    match user with
    | some u =>
      let _detached : Except String Unit := saveAttempt o
      Except.ok (st2, [⟨u, videoId, (100 : ℚ)⟩])
    | none => Except.ok (st2, [])
  else Except.ok (st, [])

/-- The seeding effect (lines 331-348): with no user it does nothing;
otherwise it awaits `getUserProgress(user.uid)` inside `try`/`catch`
(a failure only logs a warning) and, if a record exists for this video,
seeds `completed` and `pct` from it (`setPct(v.pct || 0)`). -/
def seedLoad (user : Option String) (fetchResult : Except String VPMap)
    (videoId : String) (st : MonitorState) : MonitorState :=
  match user with
  | none => st
  | some _ =>
    match fetchResult with
    | Except.error _ => st
    | Except.ok progress =>
      match progress videoId with
      | some v => { st with completed := v.completed, pct := v.pct }
      | none => st

/-! ## Timer lifecycle (`onReady` lines 351-357, unmount effect lines 393-397) -/

/-- The render-scope values a freshly created `onReady` closure sees. -/
structure RenderCtx where
  videoId : String
  user : Option String
  completed : Bool
deriving DecidableEq, Repr

/-- The timer bookkeeping of one component instance: `pollRef.current`
plus the set of intervals that are actually live (scheduled and not yet
cleared), with a fresh-id counter. -/
structure TimerState where
  pollRef : Option PollClosure
  live : List PollClosure
  nextId : ℕ
deriving DecidableEq, Repr

def initialTimerState : TimerState := ⟨none, [], 0⟩

/-- Model of `clearInterval(id)`: the timer with that id stops being live
(a no-op if it is not live). -/
def clearLive (live : List PollClosure) (c : PollClosure) : List PollClosure :=
  live.filter (fun t => t.tid != c.tid)

/-- The `onReady` handler's timer management (lines 351-357): clear the
previously stored interval if any, then schedule a fresh interval whose
callback captures the current render's `videoId`, `completed` and `user`,
and store it in `pollRef.current`. -/
def onReadyHandler (ctx : RenderCtx) (ts : TimerState) : TimerState :=
  let live1 :=
    match ts.pollRef with
    | some c => clearLive ts.live c
    | none => ts.live
  let c2 : PollClosure := ⟨ts.nextId, ctx.videoId, ctx.completed, ctx.user⟩
  ⟨some c2, c2 :: live1, ts.nextId + 1⟩

/-- The unmount cleanup effect (lines 393-397):
`if (pollRef.current) clearInterval(pollRef.current)`. -/
def unmountCleanup (ts : TimerState) : TimerState :=
  match ts.pollRef with
  | some c => { ts with live := clearLive ts.live c }
  | none => ts

/-- The timer-affecting events of one component instance. -/
inductive MountEv
  | ready (ctx : RenderCtx)
  | unmount
deriving DecidableEq, Repr

def stepEv (ts : TimerState) (e : MountEv) : TimerState :=
  match e with
  | MountEv.ready ctx => onReadyHandler ctx ts
  | MountEv.unmount => unmountCleanup ts

def runEvents (es : List MountEv) : TimerState :=
  es.foldl stepEv initialTimerState

/-- Invariant: at most one interval is live, and it is exactly the one
stored in `pollRef.current`. -/
def TimerInv (ts : TimerState) : Prop :=
  ts.live = [] ∨ ∃ c, ts.live = [c] ∧ ts.pollRef = some c

/-- A concrete store holding one prior record for content "a" under user
"u", used to exercise merge isolation. -/
def c7demoStore : Store := fun u =>
  if u = "u" then
    some ⟨some (fun k => if k = "a" then some ⟨false, 30, 1⟩ else none)⟩
  else none

/-! ## Helper lemmas -/

theorem timerInv_initial : TimerInv initialTimerState := Or.inl rfl

theorem timerInv_step (ts : TimerState) (e : MountEv) (h : TimerInv ts) :
    TimerInv (stepEv ts e) := by
  cases e with
  | ready ctx =>
    rcases h with h | ⟨c, hl, hp⟩
    · cases hr : ts.pollRef with
      | none => exact Or.inr ⟨_, by simp [stepEv, onReadyHandler, hr, h], rfl⟩
      | some c => exact Or.inr ⟨_, by simp [stepEv, onReadyHandler, hr, h, clearLive], rfl⟩
    · exact Or.inr ⟨_, by simp [stepEv, onReadyHandler, hp, hl, clearLive], rfl⟩
  | unmount =>
    rcases h with h | ⟨c, hl, hp⟩
    · cases hr : ts.pollRef with
      | none => exact Or.inl (by simp [stepEv, unmountCleanup, hr, h])
      | some c => exact Or.inl (by simp [stepEv, unmountCleanup, hr, h, clearLive])
    · exact Or.inl (by simp [stepEv, unmountCleanup, hp, hl, clearLive])

theorem timerInv_foldl (es : List MountEv) :
    ∀ ts : TimerState, TimerInv ts → TimerInv (es.foldl stepEv ts) := by
  induction es with
  | nil => intro ts h; exact h
  | cons e rest ih => intro ts h; exact ih _ (timerInv_step ts e h)

theorem timerInv_run (es : List MountEv) : TimerInv (runEvents es) :=
  timerInv_foldl es initialTimerState timerInv_initial

theorem onReady_live_of_inv (ctx : RenderCtx) (ts : TimerState) (h : TimerInv ts) :
    (onReadyHandler ctx ts).live = [⟨ts.nextId, ctx.videoId, ctx.completed, ctx.user⟩] := by
  rcases h with h | ⟨c, hl, hp⟩
  · cases hr : ts.pollRef <;> simp [onReadyHandler, hr, h, clearLive]
  · simp [onReadyHandler, hp, hl, clearLive]

theorem unmount_live_of_inv (ts : TimerState) (h : TimerInv ts) :
    (unmountCleanup ts).live = [] := by
  rcases h with h | ⟨c, hl, hp⟩
  · cases hr : ts.pollRef <;> simp [unmountCleanup, hr, h, clearLive]
  · simp [unmountCleanup, hp, hl, clearLive]

theorem runEvents_append (es l : List MountEv) :
    runEvents (es ++ l) = l.foldl stepEv (runEvents es) := by
  simp [runEvents, List.foldl_append]

theorem tick_completed_mono (cl : PollClosure) (sample : Option PlayerSample)
    (st : MonitorState) : st.completed ≤ (tick cl sample st).1.completed := by
  cases sample with
  | none => exact le_refl _
  | some s =>
    simp only [tick]
    split_ifs <;> simp

theorem tickE_eq_ok (cl : PollClosure) (sample : Option PlayerSample)
    (o : WriteOutcome) (st : MonitorState) :
    tickE cl sample o st = Except.ok (tick cl sample st) := by
  cases sample with
  | none => rfl
  | some s =>
    simp only [tickE, tick]
    split_ifs
    · rfl
    · cases cl.capturedUser with
      | none => rfl
      | some u => cases o <;> rfl
    · rfl

theorem onStateChangeE_eq_ok (data : ℤ) (user : Option String) (vid : String)
    (o : WriteOutcome) (st : MonitorState) :
    onStateChangeE data user vid o st = Except.ok (onStateChange data user vid st) := by
  simp only [onStateChangeE, onStateChange]
  split_ifs
  · cases user <;> rfl
  · rfl

/-! ## Claims -/

/-- C1: the spec claims exactly one Progress Store write per mount when the
percent reaches 80 multiple times, and no writes after the Completed state
is entered.  The code violates this: the interval callback tests the
closure-captured `completed`, which `setCompleted(true)` never updates, so
a second tick at 85% issues a second write even though the first tick
already entered the completed state.  This theorem evaluates the model at
that failing input: first tick completes and writes once, yet two ticks
produce two writes in total. -/
theorem c1_second_crossing_writes_again :
    (tick ⟨0, "v1", false, some "u1"⟩ (some ⟨200, 170⟩) initialMonitorState).1.completed
      = true ∧
    (tick ⟨0, "v1", false, some "u1"⟩ (some ⟨200, 170⟩) initialMonitorState).2.length = 1 ∧
    (runTicks ⟨0, "v1", false, some "u1"⟩
        [some ⟨200, 170⟩, some ⟨200, 170⟩] initialMonitorState).2.length = 2 := by
  refine ⟨?_, ?_, ?_⟩ <;> norm_num [runTicks, tick, jsRound, initialMonitorState]

/-- C2 counterexample: the claim states the completion transition fires on
a tick exactly when `round(currentPosition / duration * 100) >= 80` while
local `completed` is false.  At duration 1000 and position 796 the rounded
percent is 80 (so the claim predicts the transition fires), local
`completed` is false, yet the code — which compares the *unrounded*
percent 79.6 against 80 — fires no transition and issues no write. -/
theorem c2_rounded_threshold_counterexample :
    jsRound (796 / 1000 * 100 : ℚ) = 80 ∧
    initialMonitorState.completed = false ∧
    tick ⟨0, "v", false, some "u"⟩ (some ⟨1000, 796⟩) initialMonitorState
      = (⟨false, 80⟩, []) := by
  refine ⟨?_, rfl, ?_⟩ <;> norm_num [tick, jsRound, initialMonitorState]

/-- C2 (amended): on a tick with an attached player and non-zero duration,
the displayed `pct` becomes `round(currentPosition / duration * 100)`, and
the completion transition (set `completed = true` and issue the write with
the raw percent) fires exactly when the *unrounded* percent is `>= 80`
while the `completed` flag captured by the sampling callback is still
false. -/
theorem c2_threshold_on_raw_percent (cl : PollClosure) (st : MonitorState)
    (d c : ℚ) (u : String) (hd : d ≠ 0) (hu : cl.capturedUser = some u) :
    (tick cl (some ⟨d, c⟩) st).1.pct = jsRound (c / d * 100) ∧
    (tick cl (some ⟨d, c⟩) st
        = (⟨true, jsRound (c / d * 100)⟩, [⟨u, cl.videoId, c / d * 100⟩])
      ↔ (80 ≤ c / d * 100 ∧ cl.capturedCompleted = false)) := by
  have hred : tick cl (some ⟨d, c⟩) st =
      (if 80 ≤ c / d * 100 ∧ cl.capturedCompleted = false then
        ((⟨true, jsRound (c / d * 100)⟩ : MonitorState),
          [(⟨u, cl.videoId, c / d * 100⟩ : WriteReq)])
      else ((⟨st.completed, jsRound (c / d * 100)⟩ : MonitorState), [])) := by
    simp only [tick, hu]
    rw [if_neg hd]
  rw [hred]
  by_cases hcond : 80 ≤ c / d * 100 ∧ cl.capturedCompleted = false
  · rw [if_pos hcond]
    exact ⟨rfl, by simp [hcond]⟩
  · rw [if_neg hcond]
    refine ⟨rfl, ?_⟩
    constructor
    · intro hEq
      have hsnd : ([] : List WriteReq) = [⟨u, cl.videoId, c / d * 100⟩] :=
        congrArg Prod.snd hEq
      simp at hsnd
    · intro hc
      exact absurd hc hcond

/-- C2 witness: the amended theorem applied at duration 200, position 170
(raw percent 85). -/
theorem c2_threshold_on_raw_percent_witness :
    (200 : ℚ) ≠ 0 ∧
    (⟨0, "v", false, some "u"⟩ : PollClosure).capturedUser = some "u" ∧
    ((tick ⟨0, "v", false, some "u"⟩ (some ⟨200, 170⟩) initialMonitorState).1.pct
        = jsRound ((170 : ℚ) / 200 * 100) ∧
      (tick ⟨0, "v", false, some "u"⟩ (some ⟨200, 170⟩) initialMonitorState
          = (⟨true, jsRound ((170 : ℚ) / 200 * 100)⟩, [⟨"u", "v", (170 : ℚ) / 200 * 100⟩])
        ↔ (80 ≤ (170 : ℚ) / 200 * 100 ∧
            (⟨0, "v", false, some "u"⟩ : PollClosure).capturedCompleted = false))) :=
  ⟨by norm_num, rfl,
    c2_threshold_on_raw_percent ⟨0, "v", false, some "u"⟩ initialMonitorState
      200 170 "u" (by norm_num) rfl⟩

/-- C4: store-layer failures are absorbed at the monitor boundary.  On the
interval-tick path the awaited save sits inside `try`/`catch`, and on the
native "ended" path the save is fire-and-forget, so for every write
outcome (including a failed one) each handler returns normally with the
same state and requests as the pure semantics — in particular the
optimistic `completed = true` set before the write is never rolled back
(the resulting `completed` is never below the prior one). -/
theorem c4_store_failures_absorbed (cl : PollClosure) (sample : Option PlayerSample)
    (st : MonitorState) (o : WriteOutcome) (data : ℤ) (user : Option String)
    (vid : String) :
    tickE cl sample o st = Except.ok (tick cl sample st) ∧
    onStateChangeE data user vid o st = Except.ok (onStateChange data user vid st) ∧
    st.completed ≤ (tick cl sample st).1.completed :=
  ⟨tickE_eq_ok cl sample o st, onStateChangeE_eq_ok data user vid o st,
    tick_completed_mono cl sample st⟩

/-- C5 counterexample: the claim says every tick after completion *only*
updates the displayed pct.  After a first tick at 85% has set
`completed = true`, a second tick at 83% — taken from the state the first
tick produced — still issues a Progress Store write, because the interval
callback tests the closure-captured flag rather than the live state. -/
theorem c5_write_after_completion_counterexample :
    (tick ⟨0, "v", false, some "u"⟩ (some ⟨200, 170⟩) initialMonitorState).1.completed
      = true ∧
    (tick ⟨0, "v", false, some "u"⟩ (some ⟨200, 166⟩)
        (tick ⟨0, "v", false, some "u"⟩ (some ⟨200, 170⟩) initialMonitorState).1).2
      = [⟨"u", "v", 83⟩] := by
  constructor <;> norm_num [tick, jsRound, initialMonitorState]

/-- C5 (amended): sticky completion holds — once local `completed` is
true, no subsequent sampling tick, for any observed sample, ever sets it
back to false (though a tick at percent >= 80 may still re-issue a write,
see the counterexample). -/
theorem c5_sticky_completion (cl : PollClosure) (sample : Option PlayerSample)
    (st : MonitorState) (h : st.completed = true) :
    (tick cl sample st).1.completed = true := by
  have := tick_completed_mono cl sample st
  rw [h] at this
  exact le_antisymm (Bool.le_true _) this

/-- C5 witness: a completed state stays completed across a tick reporting
5% watched. -/
theorem c5_sticky_completion_witness :
    (⟨true, 85⟩ : MonitorState).completed = true ∧
    (tick ⟨0, "v", false, some "u"⟩ (some ⟨200, 10⟩) (⟨true, 85⟩ : MonitorState)).1.completed
      = true :=
  ⟨rfl, c5_sticky_completion ⟨0, "v", false, some "u"⟩ (some ⟨200, 10⟩) ⟨true, 85⟩ rfl⟩

/-- C6: at most one sampling timer is live per component instance after
any sequence of `onReady` and unmount events; after two successive
`onReady` events (two rapid content switches) exactly one timer is live
and it is tied to the latest content identifier; an unmount leaves no live
timer. -/
theorem c6_single_active_timer (es : List MountEv) (c1 c2 : RenderCtx) :
    (runEvents es).live.length ≤ 1 ∧
    (runEvents (es ++ [MountEv.ready c1, MountEv.ready c2])).live.map PollClosure.videoId
      = [c2.videoId] ∧
    (runEvents (es ++ [MountEv.unmount])).live = [] := by
  refine ⟨?_, ?_, ?_⟩
  · rcases timerInv_run es with h | ⟨c, hl, _⟩
    · simp [h]
    · simp [hl]
  · rw [runEvents_append]
    have h1 := timerInv_step _ (MountEv.ready c1) (timerInv_run es)
    show ((onReadyHandler c2 (stepEv (runEvents es) (MountEv.ready c1))).live.map _) = _
    rw [onReady_live_of_inv c2 _ h1]
    rfl
  · rw [runEvents_append]
    exact unmount_live_of_inv _ (timerInv_run es)

/-- C8: fail-open seeding — if the seed read rejects, the catch block only
logs, so the monitor state is left unchanged (in particular the defaults
`pct = 0, completed = false` on mount), subsequent ticks still update the
displayed pct, and the completion transition still fires at 80%. -/
theorem c8_fail_open_seeding (u vid e : String) (st : MonitorState) (tid : ℕ) :
    seedLoad (some u) (Except.error e) vid st = st ∧
    initialMonitorState = ⟨false, 0⟩ ∧
    tick ⟨tid, vid, false, some u⟩ (some ⟨200, 100⟩) initialMonitorState
      = (⟨false, 50⟩, []) ∧
    tick ⟨tid, vid, false, some u⟩ (some ⟨200, 170⟩) initialMonitorState
      = (⟨true, 85⟩, [⟨u, vid, 85⟩]) := by
  refine ⟨rfl, rfl, ?_, ?_⟩ <;> norm_num [tick, jsRound, initialMonitorState]

/-- C9: with no authenticated user, a tick crossing 80% sets local
`completed = true` for display but issues zero Progress Store calls, and
the native "ended" signal likewise completes without any call. -/
theorem c9_no_user_no_write (tid : ℕ) (vid : String) (st : MonitorState)
    (d c : ℚ) (p : ℤ) (hd : d ≠ 0) (hp : 80 ≤ c / d * 100) :
    tick ⟨tid, vid, false, none⟩ (some ⟨d, c⟩) st = (⟨true, jsRound (c / d * 100)⟩, []) ∧
    onStateChange 0 none vid ⟨false, p⟩ = (⟨true, p⟩, []) := by
  constructor
  · simp only [tick]
    rw [if_neg hd, if_pos ⟨hp, trivial⟩]
  · rfl

/-- C9 witness: the theorem applied at duration 200, position 170. -/
theorem c9_no_user_no_write_witness :
    (200 : ℚ) ≠ 0 ∧ (80 : ℚ) ≤ 170 / 200 * 100 ∧
    (tick ⟨0, "v", false, none⟩ (some ⟨200, 170⟩) initialMonitorState
        = (⟨true, jsRound ((170 : ℚ) / 200 * 100)⟩, []) ∧
      onStateChange 0 none "v" ⟨false, 0⟩ = (⟨true, 0⟩, [])) :=
  ⟨by norm_num, by norm_num,
    c9_no_user_no_write 0 "v" initialMonitorState 200 170 0 (by norm_num) (by norm_num)⟩

/-- C3: `saveVideoProgress` fails (throws) on an absent/empty user id,
leaving the store unchanged; otherwise it computes
`completed = percent >= 80` from the unrounded percent at call time and
merge-upserts the single record
`{ completed, watchedPct = round(percent), updatedAt = now }` under the
content id into the user's document. -/
theorem c3_saveProgress_contract (uid vid : String) (pct : ℚ) (now : ℤ)
    (store : Store) :
    (uid = "" →
      saveVideoProgress uid vid pct now store
          = Except.error "No uid for saving progress" ∧
        saveResultStore uid vid pct now store = store) ∧
    (uid ≠ "" →
      saveVideoProgress uid vid pct now store
          = Except.ok (saveResultStore uid vid pct now store) ∧
        lookupVP (saveResultStore uid vid pct now store) uid vid
          = some ⟨decide (80 ≤ pct), jsRound pct, now⟩) := by
  constructor
  · intro h
    subst h
    exact ⟨rfl, rfl⟩
  · intro h
    constructor
    · simp [saveVideoProgress, saveResultStore, h]
    · simp [saveVideoProgress, saveResultStore, lookupVP, h]

/-- C3 witness: the contract applied at an empty uid and at uid "u",
content "v", percent 85, time 7, on the empty store. -/
theorem c3_saveProgress_contract_witness :
    (("" : String) = "" ∧
      saveVideoProgress "" "v" 85 7 emptyStore
        = Except.error "No uid for saving progress") ∧
    (("u" : String) ≠ "" ∧
      lookupVP (saveResultStore "u" "v" 85 7 emptyStore) "u" "v"
        = some ⟨decide (80 ≤ (85 : ℚ)), jsRound 85, 7⟩) :=
  ⟨⟨rfl, ((c3_saveProgress_contract "" "v" 85 7 emptyStore).1 rfl).1⟩,
    ⟨by simp, ((c3_saveProgress_contract "u" "v" 85 7 emptyStore).2 (by simp)).2⟩⟩

/-- C7: merge isolation — a save for content `b` under user `u` leaves the
stored record of any other content `a` under `u` unchanged, and leaves
every other user's document untouched: the write affects only its own
content key. -/
theorem c7_merge_isolation (store : Store) (u a b : String) (pct : ℚ) (now : ℤ)
    (hu : u ≠ "") (hab : a ≠ b) :
    lookupVP (saveResultStore u b pct now store) u a = lookupVP store u a ∧
    (∀ w, w ≠ u → saveResultStore u b pct now store w = store w) := by
  constructor
  · cases hsu : store u with
    | none => simp [lookupVP, saveResultStore, saveVideoProgress, hu, hsu, hab, emptyVP]
    | some d =>
      cases hdv : d.videoProgress with
      | none => simp [lookupVP, saveResultStore, saveVideoProgress, hu, hsu, hdv, hab, emptyVP]
      | some m => simp [lookupVP, saveResultStore, saveVideoProgress, hu, hsu, hdv, hab]
  · intro w hw
    simp [saveResultStore, saveVideoProgress, hu, hw]

/-- C7 witness: saving content "b" at 90% under user "u" over a store
holding a prior record for content "a" leaves the record for "a" and the
document of user "w" unchanged. -/
theorem c7_merge_isolation_witness :
    ("u" : String) ≠ "" ∧ ("a" : String) ≠ "b" ∧
    lookupVP (saveResultStore "u" "b" 90 5 c7demoStore) "u" "a"
      = lookupVP c7demoStore "u" "a" ∧
    saveResultStore "u" "b" 90 5 c7demoStore "w" = c7demoStore "w" :=
  ⟨by simp, by simp,
    (c7_merge_isolation c7demoStore "u" "a" "b" 90 5 (by simp) (by simp)).1,
    (c7_merge_isolation c7demoStore "u" "a" "b" 90 5 (by simp) (by simp)).2 "w" (by simp)⟩

/-- C10: `getUserProgress` with an absent/empty uid returns the empty
mapping immediately, without invoking the store read and without failing,
whatever that read would have produced; and with a real uid whose
document exists but has no `videoProgress` sub-document it also returns
the empty mapping. -/
theorem c10_fetch_defaults (r : Except String (Option UserDoc)) (u : String)
    (h : u ≠ "") :
    getUserProgress "" r = (Except.ok emptyVP, false) ∧
    getUserProgress u (Except.ok (some ⟨none⟩)) = (Except.ok emptyVP, true) := by
  constructor
  · rfl
  · simp [getUserProgress, h]

/-- C10 witness: an empty uid with a rejecting read, and uid "u" with a
document lacking the sub-document. -/
theorem c10_fetch_defaults_witness :
    ("u" : String) ≠ "" ∧
    getUserProgress "" (Except.error "store unavailable") = (Except.ok emptyVP, false) ∧
    getUserProgress "u" (Except.ok (some ⟨none⟩)) = (Except.ok emptyVP, true) :=
  ⟨by simp,
    (c10_fetch_defaults (Except.error "store unavailable") "u" (by simp)).1,
    (c10_fetch_defaults (Except.error "store unavailable") "u" (by simp)).2⟩

end MLStudio
